import Mathlib

/-!
Verification of the mesh-reduction decision layer of `remesh.py`.

The script drives an external mesh engine (Blender). The engine itself is
opaque: each engine operation either returns a transformed mesh or raises;
we embed it as a structure of functions returning `Option Mesh`, where
`none` models a raised engine exception (the mesh is left in the state it
had at the raise point). Face counts are `Nat`; Python floats on these
code paths are small exact decimals and are embedded as `ℚ`.

Definitions are transcribed from the source functions:
  `is_valid_obj`, `analyze_mesh_quality`, `try_quadric_decimate`,
  `try_unsubdiv_decimate`, `try_planar_decimate`,
  `apply_subdivision_surface_then_decimate`, `apply_smart_smooth`,
  `intelligent_mesh_reduction`, `parse_arguments`, and the `main`
  range guard.
The strategy loop threads the mesh state through each attempt and records
a transcript of attempts (facesBefore, returned flag, facesAfter) so that
the control-flow claims can be stated about the run.
-/

set_option allowUnsafeReducibility true

set_option maxRecDepth 10000

attribute [local semireducible] Rat.mul Rat.add Rat.inv Rat.sub Rat.ofScientific

/-- A mesh as the decision layer observes it: whether the object is an
accessible MESH-type object, the list of its polygons (each recorded by its
vertex count), the vertex count, and the edge lengths. -/
structure Mesh where
  isMesh : Bool
  faces : List Nat
  vertCount : Nat
  edgeLengths : List ℚ
deriving DecidableEq

/-- The external mesh engine. Each operation returns `some` transformed
mesh, or `none` when the engine raises (the mesh is unchanged at that
call). `decimateCollapse` receives the modifier ratio and the
preserve-sharp flag (15 degree angle limit); `decimateDissolve` receives the
angle limit in degrees (dissolve boundaries is always false in the source);
`subsurf` is one level of subdivision surface; `smoothPass` is the
normals/shade-smooth/edge-split post-processing sequence. -/
structure Engine where
  decimateCollapse : ℚ → Bool → Mesh → Option Mesh
  decimateUnsubdiv : Nat → Mesh → Option Mesh
  decimateDissolve : ℚ → Mesh → Option Mesh
  subsurf : Mesh → Option Mesh
  smoothPass : Mesh → Option Mesh

/-- Source `is_valid_obj`: the object is a MESH type object with more than
zero polygons (a raised ReferenceError/AttributeError is folded into
`isMesh = false`). -/
def is_valid_obj (o : Mesh) : Bool :=
  o.isMesh && decide (0 < o.faces.length)

/-- The four classification results of `analyze_mesh_quality`. -/
inductive MeshType where
  | unknown
  | structured
  | dense
  | organic
deriving DecidableEq

/-- Source: `quad_faces / face_count if face_count > 0 else 0`, where a quad
face is a polygon with exactly 4 vertices. -/
def quad_ratio (m : Mesh) : ℚ :=
  if 0 < m.faces.length then
    ((m.faces.countP (fun v => v == 4) : ℚ)) / (m.faces.length : ℚ)
  else 0

/-- Source: `vert_count / face_count if face_count > 0 else 0`. -/
def vert_face_ratio (m : Mesh) : ℚ :=
  if 0 < m.faces.length then (m.vertCount : ℚ) / (m.faces.length : ℚ) else 0

/-- Source: mean of all edge lengths, 0 when there are no edges. -/
def avg_edge_length (m : Mesh) : ℚ :=
  if m.edgeLengths.length = 0 then 0
  else m.edgeLengths.sum / (m.edgeLengths.length : ℚ)

/-- Source `analyze_mesh_quality`: invalid objects are `unknown`; otherwise
quad ratio above 0.7 gives `structured`, else vertex/face ratio above 0.8
gives `dense`, else `organic`. -/
def analyze_mesh_quality (m : Mesh) : MeshType :=
  if is_valid_obj m = false then MeshType.unknown
  else if quad_ratio m > 7/10 then MeshType.structured
  else if vert_face_ratio m > 4/5 then MeshType.dense
  else MeshType.organic

/-- The classification rule as a function of the two ratios alone
(first match wins), used to state that the category depends on nothing
else. -/
def classify_spec (qr vfr : ℚ) : MeshType :=
  if qr > 7/10 then MeshType.structured
  else if vfr > 4/5 then MeshType.dense
  else MeshType.organic

/-- Source `try_quadric_decimate`: below 4 faces it skips and returns
false; otherwise it applies a COLLAPSE decimate modifier with ratio
`max(0.1, 1 - target_reduction)` and returns whether the face count
strictly dropped. An engine raise is caught and returned as false. -/
def try_quadric_decimate (eng : Engine) (obj : Mesh) (target_reduction : ℚ)
    (preserve_sharp : Bool) : Bool × Mesh :=
  if obj.faces.length < 4 then (false, obj)
  else
    match eng.decimateCollapse (max (1/10) (1 - target_reduction)) preserve_sharp obj with
    | none => (false, obj)
    | some obj2 =>
      if obj2.faces.length < obj.faces.length then (true, obj2) else (false, obj2)

/-- Source `try_unsubdiv_decimate`: applies an UNSUBDIV decimate modifier
with the given iterations and returns whether the face count dropped. -/
def try_unsubdiv_decimate (eng : Engine) (obj : Mesh) (iterations : Nat) :
    Bool × Mesh :=
  match eng.decimateUnsubdiv iterations obj with
  | none => (false, obj)
  | some obj2 => (decide (obj2.faces.length < obj.faces.length), obj2)

/-- Source `try_planar_decimate`: applies a DISSOLVE decimate modifier with
the given angle threshold (degrees) and returns whether the face count
dropped. -/
def try_planar_decimate (eng : Engine) (obj : Mesh) (angle_threshold : ℚ) :
    Bool × Mesh :=
  match eng.decimateDissolve angle_threshold obj with
  | none => (false, obj)
  | some obj2 => (decide (obj2.faces.length < obj.faces.length), obj2)

/-- Source `apply_subdivision_surface_then_decimate`: one subdivision
level, then an adjusted quadric decimate with
`clamp(1 - original*(1-target)/subdivided, 0.1, 0.9)`. A raise during
subdivision leaves the mesh unchanged; a zero subdivided face count is the
ZeroDivisionError path, caught with the mesh left subdivided. -/
def apply_subdivision_surface_then_decimate (eng : Engine) (obj : Mesh)
    (target_reduction : ℚ) : Bool × Mesh :=
  match eng.subsurf obj with
  | none => (false, obj)
  | some obj2 =>
    if obj2.faces.length = 0 then (false, obj2)
    else
      try_quadric_decimate eng obj2
        (max (1/10) (min (9/10)
          (1 - ((obj.faces.length : ℚ) * (1 - target_reduction)) / (obj2.faces.length : ℚ))))
        true

/-- Source `apply_smart_smooth`: recompute normals, shade smooth, edge
split; any raise is caught and reported as false. -/
def apply_smart_smooth (eng : Engine) (obj : Mesh) : Bool × Mesh :=
  match eng.smoothPass obj with
  | none => (false, obj)
  | some obj2 => (true, obj2)

/-- Python `int()` on a rational: truncation toward zero. -/
def pyInt (q : ℚ) : ℤ :=
  Int.tdiv q.num (q.den : ℤ)

/-- Transcript of one strategy attempt in the reduction loop: the face
count before the attempt, the boolean the strategy call returned, and the
face count after the attempt. -/
structure Attempt where
  strategyName : String
  facesBefore : Nat
  succeeded : Bool
  facesAfter : Nat
deriving DecidableEq

/-- Source strategy lists of `intelligent_mesh_reduction`, one ordered list
per mesh type (the `else` arm of the source covers both `organic` and
`unknown`). Each strategy is the name string paired with the closure the
source builds over the primitives. -/
def strategy_catalog (eng : Engine) (mesh_type : MeshType) (target_reduction : ℚ) :
    List (String × (Mesh → Bool × Mesh)) :=
  match mesh_type with
  | MeshType.structured =>
    [("Conservative Quadric", fun o => try_quadric_decimate eng o (target_reduction * (7/10)) true),
     ("Un-Subdivide", fun o => try_unsubdiv_decimate eng o 2),
     ("Standard Quadric", fun o => try_quadric_decimate eng o target_reduction true),
     ("Planar Dissolve", fun o => try_planar_decimate eng o 5)]
  | MeshType.dense =>
    [("SubSurf + Decimate", fun o => apply_subdivision_surface_then_decimate eng o target_reduction),
     ("Progressive Quadric", fun o => try_quadric_decimate eng o (target_reduction * (4/5)) true),
     ("Un-Subdivide", fun o => try_unsubdiv_decimate eng o 3),
     ("Aggressive Quadric", fun o => try_quadric_decimate eng o target_reduction false)]
  | _ =>
    [("Quality Quadric", fun o => try_quadric_decimate eng o (target_reduction * (3/5)) true),
     ("SubSurf + Decimate", fun o => apply_subdivision_surface_then_decimate eng o target_reduction),
     ("Planar + Quadric", fun o =>
        let p := try_planar_decimate eng o 3
        if p.1 then try_quadric_decimate eng p.2 (target_reduction * (1/2)) true
        else (false, p.2)),
     ("Standard Quadric", fun o => try_quadric_decimate eng o target_reduction true)]

/-- The strategy loop of `intelligent_mesh_reduction`: runs the strategies
in order threading the mesh; when a strategy call returns true and the new
face count is below 0.95 of the count before it, the sticky success flag is
set, and if additionally the new count lies in
`[0.7 * target_faces, 1.3 * target_faces]` the loop breaks. Returns the
final mesh, the sticky flag, and the transcript of executed attempts. -/
def runStrategies (target_faces : ℤ) :
    List (String × (Mesh → Bool × Mesh)) → Mesh → Bool → Mesh × Bool × List Attempt
  | [], obj, success => (obj, success, [])
  | (nm, f) :: rest, obj, success =>
    let r := f obj
    let att : Attempt := ⟨nm, obj.faces.length, r.1, r.2.faces.length⟩
    if r.1 = true then
      if (r.2.faces.length : ℚ) < (obj.faces.length : ℚ) * (19/20) then
        if (target_faces : ℚ) * (7/10) ≤ (r.2.faces.length : ℚ) ∧
            (r.2.faces.length : ℚ) ≤ (target_faces : ℚ) * (13/10) then
          (r.2, true, [att])
        else
          let k := runStrategies target_faces rest r.2 true
          (k.1, k.2.1, att :: k.2.2)
      else
        let k := runStrategies target_faces rest r.2 success
        (k.1, k.2.1, att :: k.2.2)
    else
      let k := runStrategies target_faces rest r.2 success
      (k.1, k.2.1, att :: k.2.2)

/-- The analysis, target computation, catalog selection and strategy loop
of `intelligent_mesh_reduction`, starting from the sticky flag `False`. -/
def reduction_loop_result (eng : Engine) (obj : Mesh) (target_reduction : ℚ) :
    Mesh × Bool × List Attempt :=
  runStrategies (pyInt ((obj.faces.length : ℚ) * (1 - target_reduction)))
    (strategy_catalog eng (analyze_mesh_quality obj) target_reduction) obj false

/-- Observable outcome of one `intelligent_mesh_reduction` call: the
boolean the function returns, the face counts it reports, the final
reduction percentage it computes, the attempt transcript, the sticky
success flag, and whether `apply_smart_smooth` was invoked. -/
structure Outcome where
  overallSuccess : Bool
  originalFaces : Nat
  finalFaces : Nat
  finalReductionPct : ℚ
  attempts : List Attempt
  stickySuccess : Bool
  postProcessed : Bool
deriving DecidableEq

/-- Tail of `intelligent_mesh_reduction` once both entry guards have
passed: run the strategy loop, invoke `apply_smart_smooth` exactly when
the sticky flag is set, and report the final re-check
`final_faces < original_faces` together with the final reduction
percentage `(original - final) / original * 100`. -/
def imr_core (eng : Engine) (obj : Mesh) (target_reduction : ℚ) : Outcome × Mesh :=
  let res := reduction_loop_result eng obj target_reduction
  let post := if res.2.1 = true then apply_smart_smooth eng res.1 else (false, res.1)
  (⟨decide (post.2.faces.length < obj.faces.length), obj.faces.length,
    post.2.faces.length,
    ((obj.faces.length : ℚ) - (post.2.faces.length : ℚ)) / (obj.faces.length : ℚ) * 100,
    res.2.2, res.2.1, res.2.1⟩, post.2)

/-- Source `intelligent_mesh_reduction`: invalid object fails fast; fewer
than 100 faces returns success untouched; otherwise the strategy loop runs
via `imr_core`. -/
def intelligent_mesh_reduction (eng : Engine) (obj : Mesh) (target_reduction : ℚ) :
    Outcome × Mesh :=
  if is_valid_obj obj = false then
    (⟨false, obj.faces.length, obj.faces.length, 0, [], false, false⟩, obj)
  else if obj.faces.length < 100 then
    (⟨true, obj.faces.length, obj.faces.length, 0, [], false, false⟩, obj)
  else
    imr_core eng obj target_reduction

/-- A command-line token as `parse_arguments` sees it: either one of the
reduction flags, or a string Python `float()` parses to the given rational,
or any other string (on which `float()` raises ValueError). -/
inductive PyStr where
  | flagR
  | num (q : ℚ)
  | other
deriving DecidableEq

/-- Scanning step of `parse_arguments`: every argument is inspected; on a
reduction flag with a following argument, a parseable value replaces the
current target, an unparseable one leaves it (with a warning). -/
def parse_go : List PyStr → ℚ → ℚ
  | [], acc => acc
  | PyStr.flagR :: rest, acc =>
    match rest with
    | PyStr.num q :: _ => parse_go rest q
    | _ :: _ => parse_go rest acc
    | [] => acc
  | _ :: rest, acc => parse_go rest acc

/-- Source `parse_arguments`: default 0.5, then scan `sys.argv`. -/
def parse_arguments (argv : List PyStr) : ℚ :=
  parse_go argv (1/2)

/-- Range guard at the top of `main`: a parsed target outside `[0, 1]`
prints an error and returns before any file is processed. This returns
whether `main` goes on to process the input files. -/
def main_proceeds (argv : List PyStr) : Bool :=
  decide (0 ≤ parse_arguments argv ∧ parse_arguments argv ≤ 1)

/-- Engine whose every operation raises. -/
def stubEngine : Engine where
  decimateCollapse := fun _ _ _ => none
  decimateUnsubdiv := fun _ _ => none
  decimateDissolve := fun _ _ => none
  subsurf := fun _ => none
  smoothPass := fun _ => none

/-- A valid structured mesh of 100 quads. -/
def quadMesh100 : Mesh := ⟨true, List.replicate 100 4, 60, []⟩

/-- A valid mesh with exactly 3 faces. -/
def triMesh3 : Mesh := ⟨true, [3, 3, 3], 5, []⟩

/-- A valid mesh with 5 quad faces. -/
def quadMesh5 : Mesh := ⟨true, [4, 4, 4, 4, 4], 10, []⟩

/-- A valid mesh with 10 quad faces. -/
def quadMesh10 : Mesh := ⟨true, List.replicate 10 4, 8, []⟩

/-- A valid organic mesh: 100 triangles, low vertex/face ratio. -/
def triMesh100 : Mesh := ⟨true, List.replicate 100 3, 50, []⟩

/-- Engine where collapse removes 4 faces per call and the other decimate
operations are applied without changing the face count. -/
def dropFourEngine : Engine where
  decimateCollapse := fun _ _ m => some { m with faces := m.faces.drop 4 }
  decimateUnsubdiv := fun _ m => some m
  decimateDissolve := fun _ m => some m
  subsurf := fun _ => none
  smoothPass := fun m => some m

/-- Engine where collapse removes 50 faces per call. -/
def dropHalfEngine : Engine where
  decimateCollapse := fun _ _ m => some { m with faces := m.faces.drop 50 }
  decimateUnsubdiv := fun _ m => some m
  decimateDissolve := fun _ m => some m
  subsurf := fun _ => none
  smoothPass := fun m => some m

/-- Engine where only dissolve has an effect (removes 50 faces); collapse
and unsubdivide are applied but change nothing, subdivision raises. -/
def dissolveHalfEngine : Engine where
  decimateCollapse := fun _ _ m => some m
  decimateUnsubdiv := fun _ m => some m
  decimateDissolve := fun _ m => some { m with faces := m.faces.drop 50 }
  subsurf := fun _ => none
  smoothPass := fun m => some m

/-- Engine where each decimate call removes only a few faces, so no single
attempt reaches a 5 percent reduction on a 100-face mesh. -/
def gradualEngine : Engine where
  decimateCollapse := fun _ _ m => some { m with faces := m.faces.drop 4 }
  decimateUnsubdiv := fun _ m => some { m with faces := m.faces.drop 3 }
  decimateDissolve := fun _ m => some { m with faces := m.faces.drop 3 }
  subsurf := fun _ => none
  smoothPass := fun m => some m

/-- Engine where dissolve is a no-op (returns the mesh unchanged) while
collapse removes 5 faces per call. -/
def dissolveNoopEngine : Engine where
  decimateCollapse := fun _ _ m => some { m with faces := m.faces.drop 5 }
  decimateUnsubdiv := fun _ m => some m
  decimateDissolve := fun _ m => some m
  subsurf := fun _ => none
  smoothPass := fun m => some m

/-- Placeholder strategy used as the default of list lookups. -/
def noStrategy : String × (Mesh → Bool × Mesh) := ("", fun o => (false, o))

/-- The strategy catalog exactly as the specification lists it, for
comparison with the source catalog: same names and parameters, and the
organic composite is read literally as "both primitives run, failure of
either counts as failure" - the planar pass and the quadric pass are both
executed and the results conjoined. -/
def spec_strategy_catalog (eng : Engine) (mesh_type : MeshType) (t : ℚ) :
    List (String × (Mesh → Bool × Mesh)) :=
  match mesh_type with
  | MeshType.structured =>
    [("Conservative Quadric", fun o => try_quadric_decimate eng o ((7/10) * t) true),
     ("Un-Subdivide", fun o => try_unsubdiv_decimate eng o 2),
     ("Standard Quadric", fun o => try_quadric_decimate eng o t true),
     ("Planar Dissolve", fun o => try_planar_decimate eng o 5)]
  | MeshType.dense =>
    [("SubSurf + Decimate", fun o => apply_subdivision_surface_then_decimate eng o t),
     ("Progressive Quadric", fun o => try_quadric_decimate eng o ((4/5) * t) true),
     ("Un-Subdivide", fun o => try_unsubdiv_decimate eng o 3),
     ("Aggressive Quadric", fun o => try_quadric_decimate eng o t false)]
  | _ =>
    [("Quality Quadric", fun o => try_quadric_decimate eng o ((3/5) * t) true),
     ("SubSurf + Decimate", fun o => apply_subdivision_surface_then_decimate eng o t),
     ("Planar + Quadric", fun o =>
        let p := try_planar_decimate eng o 3
        let q := try_quadric_decimate eng p.2 ((1/2) * t) true
        (p.1 && q.1, q.2)),
     ("Standard Quadric", fun o => try_quadric_decimate eng o t true)]

/-- The catalog of the amended claim: as the specification lists it except
that the organic composite short-circuits - the quadric pass runs only when
the planar pass returned true, and failure of either counts as failure. -/
def spec_strategy_catalog_amended (eng : Engine) (mesh_type : MeshType) (t : ℚ) :
    List (String × (Mesh → Bool × Mesh)) :=
  match mesh_type with
  | MeshType.structured =>
    [("Conservative Quadric", fun o => try_quadric_decimate eng o ((7/10) * t) true),
     ("Un-Subdivide", fun o => try_unsubdiv_decimate eng o 2),
     ("Standard Quadric", fun o => try_quadric_decimate eng o t true),
     ("Planar Dissolve", fun o => try_planar_decimate eng o 5)]
  | MeshType.dense =>
    [("SubSurf + Decimate", fun o => apply_subdivision_surface_then_decimate eng o t),
     ("Progressive Quadric", fun o => try_quadric_decimate eng o ((4/5) * t) true),
     ("Un-Subdivide", fun o => try_unsubdiv_decimate eng o 3),
     ("Aggressive Quadric", fun o => try_quadric_decimate eng o t false)]
  | _ =>
    [("Quality Quadric", fun o => try_quadric_decimate eng o ((3/5) * t) true),
     ("SubSurf + Decimate", fun o => apply_subdivision_surface_then_decimate eng o t),
     ("Planar + Quadric", fun o =>
        let p := try_planar_decimate eng o 3
        if p.1 then try_quadric_decimate eng p.2 ((1/2) * t) true else (false, p.2)),
     ("Standard Quadric", fun o => try_quadric_decimate eng o t true)]


/-- Effectiveness test of the loop: a strategy attempt is counted as
effective when its call returned true and the face count dropped below
0.95 of the count before it. -/
def effectiveAttempt (a : Attempt) : Prop :=
  a.succeeded = true ∧ (a.facesAfter : ℚ) < (a.facesBefore : ℚ) * (19/20)

instance (a : Attempt) : Decidable (effectiveAttempt a) := by
  unfold effectiveAttempt
  infer_instance

lemma imr_invalid (eng : Engine) (o : Mesh) (t : ℚ) (h : is_valid_obj o = false) :
    intelligent_mesh_reduction eng o t =
      (⟨false, o.faces.length, o.faces.length, 0, [], false, false⟩, o) := by
  simp [intelligent_mesh_reduction, h]

lemma imr_small (eng : Engine) (o : Mesh) (t : ℚ) (hv : is_valid_obj o = true)
    (hs : o.faces.length < 100) :
    intelligent_mesh_reduction eng o t =
      (⟨true, o.faces.length, o.faces.length, 0, [], false, false⟩, o) := by
  simp [intelligent_mesh_reduction, hv, hs]

lemma imr_main (eng : Engine) (o : Mesh) (t : ℚ) (hv : is_valid_obj o = true)
    (hs : 100 ≤ o.faces.length) :
    intelligent_mesh_reduction eng o t = imr_core eng o t := by
  simp [intelligent_mesh_reduction, hv, Nat.not_lt.mpr hs]

lemma imr_core_attempts (eng : Engine) (o : Mesh) (t : ℚ) :
    (imr_core eng o t).1.attempts = (reduction_loop_result eng o t).2.2 := rfl

lemma imr_core_sticky (eng : Engine) (o : Mesh) (t : ℚ) :
    (imr_core eng o t).1.stickySuccess = (reduction_loop_result eng o t).2.1 := rfl

lemma imr_core_postProcessed (eng : Engine) (o : Mesh) (t : ℚ) :
    (imr_core eng o t).1.postProcessed = (reduction_loop_result eng o t).2.1 := rfl

lemma imr_core_originalFaces (eng : Engine) (o : Mesh) (t : ℚ) :
    (imr_core eng o t).1.originalFaces = o.faces.length := rfl

lemma imr_core_overallSuccess (eng : Engine) (o : Mesh) (t : ℚ) :
    (imr_core eng o t).1.overallSuccess =
      decide ((imr_core eng o t).1.finalFaces < (imr_core eng o t).1.originalFaces) := rfl

lemma imr_core_pct (eng : Engine) (o : Mesh) (t : ℚ) :
    (imr_core eng o t).1.finalReductionPct =
      (((imr_core eng o t).1.originalFaces : ℚ) - ((imr_core eng o t).1.finalFaces : ℚ)) /
        ((imr_core eng o t).1.originalFaces : ℚ) * 100 := rfl

lemma runStrategies_nil (tf : ℤ) (obj : Mesh) (s : Bool) :
    runStrategies tf [] obj s = (obj, s, []) := rfl

lemma runStrategies_cons_break (tf : ℤ) (nm : String) (f : Mesh → Bool × Mesh)
    (rest : List (String × (Mesh → Bool × Mesh))) (obj : Mesh) (s : Bool)
    (hok : (f obj).1 = true)
    (heff : ((f obj).2.faces.length : ℚ) < (obj.faces.length : ℚ) * (19/20))
    (hr : (tf : ℚ) * (7/10) ≤ ((f obj).2.faces.length : ℚ) ∧
      ((f obj).2.faces.length : ℚ) ≤ (tf : ℚ) * (13/10)) :
    runStrategies tf ((nm, f) :: rest) obj s =
      ((f obj).2, true, [⟨nm, obj.faces.length, true, (f obj).2.faces.length⟩]) := by
  simp [runStrategies, hok, heff, hr]

lemma runStrategies_cons_eff (tf : ℤ) (nm : String) (f : Mesh → Bool × Mesh)
    (rest : List (String × (Mesh → Bool × Mesh))) (obj : Mesh) (s : Bool)
    (hok : (f obj).1 = true)
    (heff : ((f obj).2.faces.length : ℚ) < (obj.faces.length : ℚ) * (19/20))
    (hr : ¬ ((tf : ℚ) * (7/10) ≤ ((f obj).2.faces.length : ℚ) ∧
      ((f obj).2.faces.length : ℚ) ≤ (tf : ℚ) * (13/10))) :
    runStrategies tf ((nm, f) :: rest) obj s =
      ((runStrategies tf rest (f obj).2 true).1,
       (runStrategies tf rest (f obj).2 true).2.1,
       ⟨nm, obj.faces.length, true, (f obj).2.faces.length⟩ ::
         (runStrategies tf rest (f obj).2 true).2.2) := by
  simp [runStrategies, hok, heff, hr]

lemma runStrategies_cons_noeff (tf : ℤ) (nm : String) (f : Mesh → Bool × Mesh)
    (rest : List (String × (Mesh → Bool × Mesh))) (obj : Mesh) (s : Bool)
    (hok : (f obj).1 = true)
    (heff : ¬ ((f obj).2.faces.length : ℚ) < (obj.faces.length : ℚ) * (19/20)) :
    runStrategies tf ((nm, f) :: rest) obj s =
      ((runStrategies tf rest (f obj).2 s).1,
       (runStrategies tf rest (f obj).2 s).2.1,
       ⟨nm, obj.faces.length, true, (f obj).2.faces.length⟩ ::
         (runStrategies tf rest (f obj).2 s).2.2) := by
  simp [runStrategies, hok, heff]

lemma runStrategies_cons_fail (tf : ℤ) (nm : String) (f : Mesh → Bool × Mesh)
    (rest : List (String × (Mesh → Bool × Mesh))) (obj : Mesh) (s : Bool)
    (hok : (f obj).1 = false) :
    runStrategies tf ((nm, f) :: rest) obj s =
      ((runStrategies tf rest (f obj).2 s).1,
       (runStrategies tf rest (f obj).2 s).2.1,
       ⟨nm, obj.faces.length, false, (f obj).2.faces.length⟩ ::
         (runStrategies tf rest (f obj).2 s).2.2) := by
  simp [runStrategies, hok]

/-- The sticky flag returned by the loop is set exactly when it started set
or some executed attempt was effective. -/
lemma runStrategies_flag_iff (tf : ℤ) (l : List (String × (Mesh → Bool × Mesh)))
    (obj : Mesh) (s : Bool) :
    ((runStrategies tf l obj s).2.1 = true) ↔
      (s = true ∨ ∃ a ∈ (runStrategies tf l obj s).2.2, effectiveAttempt a) := by
  induction l generalizing obj s with
  | nil => simp [runStrategies_nil]
  | cons hd rest ih =>
    obtain ⟨nm, f⟩ := hd
    by_cases hok : (f obj).1 = true
    · by_cases heff : ((f obj).2.faces.length : ℚ) < (obj.faces.length : ℚ) * (19/20)
      · by_cases hr : (tf : ℚ) * (7/10) ≤ ((f obj).2.faces.length : ℚ) ∧
            ((f obj).2.faces.length : ℚ) ≤ (tf : ℚ) * (13/10)
        · rw [runStrategies_cons_break tf nm f rest obj s hok heff hr]
          simp [effectiveAttempt, heff]
        · rw [runStrategies_cons_eff tf nm f rest obj s hok heff hr]
          have h2 := ih (f obj).2 true
          simp only [List.mem_cons, exists_eq_or_imp]
          constructor
          · intro _
            exact Or.inr (Or.inl ⟨rfl, heff⟩)
          · intro _
            exact h2.mpr (Or.inl rfl)
      · rw [runStrategies_cons_noeff tf nm f rest obj s hok heff]
        have h2 := ih (f obj).2 s
        simp only [List.mem_cons, exists_eq_or_imp]
        rw [h2]
        constructor
        · rintro (hs | hex)
          · exact Or.inl hs
          · exact Or.inr (Or.inr hex)
        · rintro (hs | hatt | hex)
          · exact Or.inl hs
          · exact absurd hatt.2 heff
          · exact Or.inr hex
    · rw [runStrategies_cons_fail tf nm f rest obj s (Bool.not_eq_true _ ▸ hok)]
      have h2 := ih (f obj).2 s
      simp only [List.mem_cons, exists_eq_or_imp]
      rw [h2]
      constructor
      · rintro (hs | hex)
        · exact Or.inl hs
        · exact Or.inr (Or.inr hex)
      · rintro (hs | hatt | hex)
        · exact Or.inl hs
        · exact absurd hatt.1 (by simp)
        · exact Or.inr hex

/-- An attempt of the loop transcript that was effective and landed in the
target window is the point where the loop broke: nothing follows it. -/
lemma runStrategies_break_last (tf : ℤ) (l : List (String × (Mesh → Bool × Mesh))) :
    ∀ (obj : Mesh) (s : Bool) (pre post : List Attempt) (a : Attempt),
      (runStrategies tf l obj s).2.2 = pre ++ a :: post →
      a.succeeded = true →
      (a.facesAfter : ℚ) < (a.facesBefore : ℚ) * (19/20) →
      (tf : ℚ) * (7/10) ≤ (a.facesAfter : ℚ) →
      (a.facesAfter : ℚ) ≤ (tf : ℚ) * (13/10) →
      post = [] := by
  induction l with
  | nil =>
    intro obj s pre post a h _ _ _ _
    rw [runStrategies_nil] at h
    exact absurd h.symm (List.append_ne_nil_of_right_ne_nil pre (by simp))
  | cons hd rest ih =>
    obtain ⟨nm, f⟩ := hd
    intro obj s pre post a h h1 h2 h3 h4
    by_cases hok : (f obj).1 = true
    · by_cases heff : ((f obj).2.faces.length : ℚ) < (obj.faces.length : ℚ) * (19/20)
      · by_cases hr : (tf : ℚ) * (7/10) ≤ ((f obj).2.faces.length : ℚ) ∧
            ((f obj).2.faces.length : ℚ) ≤ (tf : ℚ) * (13/10)
        · rw [runStrategies_cons_break tf nm f rest obj s hok heff hr] at h
          cases pre with
          | nil =>
            simp only [List.nil_append, List.cons.injEq] at h
            exact h.2.symm
          | cons p pre2 =>
            simp only [List.cons_append, List.cons.injEq] at h
            exact absurd h.2.symm (List.append_ne_nil_of_right_ne_nil pre2 (by simp))
        · rw [runStrategies_cons_eff tf nm f rest obj s hok heff hr] at h
          cases pre with
          | nil =>
            simp only [List.nil_append, List.cons.injEq] at h
            rw [← h.1] at h3 h4
            exact absurd ⟨h3, h4⟩ hr
          | cons p pre2 =>
            simp only [List.cons_append, List.cons.injEq] at h
            exact ih (f obj).2 true pre2 post a h.2 h1 h2 h3 h4
      · rw [runStrategies_cons_noeff tf nm f rest obj s hok heff] at h
        cases pre with
        | nil =>
          simp only [List.nil_append, List.cons.injEq] at h
          rw [← h.1] at h2
          exact absurd h2 heff
        | cons p pre2 =>
          simp only [List.cons_append, List.cons.injEq] at h
          exact ih (f obj).2 s pre2 post a h.2 h1 h2 h3 h4
    · rw [runStrategies_cons_fail tf nm f rest obj s (Bool.not_eq_true _ ▸ hok)] at h
      cases pre with
      | nil =>
        simp only [List.nil_append, List.cons.injEq] at h
        rw [← h.1] at h1
        exact absurd h1 (by simp)
      | cons p pre2 =>
        simp only [List.cons_append, List.cons.injEq] at h
        exact ih (f obj).2 s pre2 post a h.2 h1 h2 h3 h4

/-- C1: for every reduce call that passes the entry guards (valid mesh, at
least 100 faces) and hence runs the strategy loop, the returned overall
success is exactly the independent final re-check
`finalFaces < originalFaces` - for every engine behaviour, whatever the
sticky flag did - and the reported reduction percentage is
`(originalFaces - finalFaces) / originalFaces * 100`. -/
theorem C1_final_outcome (eng : Engine) (o : Mesh) (t : ℚ)
    (hv : is_valid_obj o = true) (hs : 100 ≤ o.faces.length) :
    (intelligent_mesh_reduction eng o t).1.overallSuccess =
      decide ((intelligent_mesh_reduction eng o t).1.finalFaces <
        (intelligent_mesh_reduction eng o t).1.originalFaces) ∧
    (intelligent_mesh_reduction eng o t).1.originalFaces = o.faces.length ∧
    (intelligent_mesh_reduction eng o t).1.finalReductionPct =
      (((intelligent_mesh_reduction eng o t).1.originalFaces : ℚ) -
        ((intelligent_mesh_reduction eng o t).1.finalFaces : ℚ)) /
        ((intelligent_mesh_reduction eng o t).1.originalFaces : ℚ) * 100 := by
  rw [imr_main eng o t hv hs]
  exact ⟨imr_core_overallSuccess eng o t, imr_core_originalFaces eng o t,
    imr_core_pct eng o t⟩

/-- Witness for C1: a concrete valid 100-quad mesh under the engine whose
calls all raise. -/
theorem C1_final_outcome_witness :
    (intelligent_mesh_reduction stubEngine quadMesh100 (1/2)).1.overallSuccess =
      decide ((intelligent_mesh_reduction stubEngine quadMesh100 (1/2)).1.finalFaces <
        (intelligent_mesh_reduction stubEngine quadMesh100 (1/2)).1.originalFaces) ∧
    (intelligent_mesh_reduction stubEngine quadMesh100 (1/2)).1.originalFaces =
      quadMesh100.faces.length ∧
    (intelligent_mesh_reduction stubEngine quadMesh100 (1/2)).1.finalReductionPct =
      (((intelligent_mesh_reduction stubEngine quadMesh100 (1/2)).1.originalFaces : ℚ) -
        ((intelligent_mesh_reduction stubEngine quadMesh100 (1/2)).1.finalFaces : ℚ)) /
        ((intelligent_mesh_reduction stubEngine quadMesh100 (1/2)).1.originalFaces : ℚ) * 100 :=
  C1_final_outcome stubEngine quadMesh100 (1/2) (by decide) (by decide)

/-- C2: `analyze_mesh_quality` returns `unknown` on an invalid mesh
(non-mesh object or zero polygons); on a valid mesh it classifies with
first match winning, as a deterministic function of `quad_ratio` and
`vert_face_ratio` alone: quad ratio above 0.7 gives structured, else
vertex/face ratio above 0.8 gives dense, else organic. -/
theorem C2_analyze_classifies (m : Mesh) :
    analyze_mesh_quality m =
      if is_valid_obj m then classify_spec (quad_ratio m) (vert_face_ratio m)
      else MeshType.unknown := by
  cases h : is_valid_obj m
  · simp [analyze_mesh_quality, h]
  · simp [analyze_mesh_quality, classify_spec, h]

/-- Counterexample to C3 as stated: under an engine where the first
strategy of a structured mesh with 100 faces and target reduction 0 drops
the count to 96 - which lies inside [0.7 * 100, 1.3 * 100] - the transcript
still has 4 attempts: the remaining strategies executed, because 96 missed
the separate 5 percent effectiveness test that guards the break. -/
theorem C3_counterexample :
    ((intelligent_mesh_reduction dropFourEngine quadMesh100 0).1.attempts.getD 0
        ⟨"", 0, false, 0⟩).facesAfter = 96 ∧
    pyInt ((quadMesh100.faces.length : ℚ) * (1 - 0)) = 100 ∧
    ((100 : ℤ) : ℚ) * (7/10) ≤ (96 : ℚ) ∧ (96 : ℚ) ≤ ((100 : ℤ) : ℚ) * (13/10) ∧
    (intelligent_mesh_reduction dropFourEngine quadMesh100 0).1.attempts.length = 4 := by
  decide

/-- C3 (amended): the loop stops early only at an attempt that passed the
effectiveness test and landed in the target window: any transcript attempt
whose call returned true, whose face count dropped below 0.95 of the count
before it, and whose result lies in [0.7 * targetFaces, 1.3 * targetFaces]
is the last attempt - no further strategies execute after it. -/
theorem C3_amended (eng : Engine) (o : Mesh) (t : ℚ) (pre post : List Attempt)
    (a : Attempt)
    (h : (intelligent_mesh_reduction eng o t).1.attempts = pre ++ a :: post)
    (h1 : a.succeeded = true)
    (h2 : (a.facesAfter : ℚ) < (a.facesBefore : ℚ) * (19/20))
    (h3 : ((pyInt ((o.faces.length : ℚ) * (1 - t))) : ℚ) * (7/10) ≤ (a.facesAfter : ℚ))
    (h4 : (a.facesAfter : ℚ) ≤ ((pyInt ((o.faces.length : ℚ) * (1 - t))) : ℚ) * (13/10)) :
    (intelligent_mesh_reduction eng o t).1.attempts = pre ++ [a] := by
  by_cases hv : is_valid_obj o = true
  · by_cases hsmall : o.faces.length < 100
    · rw [imr_small eng o t hv hsmall] at h
      exact absurd h.symm (List.append_ne_nil_of_right_ne_nil pre (by simp))
    · have hs : 100 ≤ o.faces.length := Nat.le_of_not_lt hsmall
      rw [imr_main eng o t hv hs, imr_core_attempts] at h ⊢
      have hlast := runStrategies_break_last
        (pyInt ((o.faces.length : ℚ) * (1 - t)))
        (strategy_catalog eng (analyze_mesh_quality o) t) o false pre post a
        h h1 h2 h3 h4
      rw [h, hlast]
  · rw [imr_invalid eng o t (Bool.not_eq_true _ ▸ hv)] at h
    exact absurd h.symm (List.append_ne_nil_of_right_ne_nil pre (by simp))

/-- Witness for C3 (amended): under an engine whose collapse halves the
mesh, the first structured strategy is effective and lands in the window,
and the transcript is exactly that one attempt. -/
theorem C3_amended_witness :
    (intelligent_mesh_reduction dropHalfEngine quadMesh100 (1/2)).1.attempts =
      [] ++ [⟨"Conservative Quadric", 100, true, 50⟩] :=
  C3_amended dropHalfEngine quadMesh100 (1/2) [] []
    ⟨"Conservative Quadric", 100, true, 50⟩
    (by decide) (by decide) (by decide) (by decide) (by decide)

/-- C4: a valid mesh with fewer than 100 faces is returned untouched with
success and an empty transcript - no strategy is attempted, the mesh value
is unchanged. -/
theorem C4_small_mesh (eng : Engine) (o : Mesh) (t : ℚ)
    (hv : is_valid_obj o = true) (hs : o.faces.length < 100) :
    (intelligent_mesh_reduction eng o t).1.overallSuccess = true ∧
    (intelligent_mesh_reduction eng o t).1.finalFaces =
      (intelligent_mesh_reduction eng o t).1.originalFaces ∧
    (intelligent_mesh_reduction eng o t).1.attempts = [] ∧
    (intelligent_mesh_reduction eng o t).2 = o := by
  rw [imr_small eng o t hv hs]
  exact ⟨rfl, rfl, rfl, rfl⟩

/-- Witness for C4: a concrete 5-quad mesh. -/
theorem C4_small_mesh_witness :
    (intelligent_mesh_reduction stubEngine quadMesh5 (1/2)).1.overallSuccess = true ∧
    (intelligent_mesh_reduction stubEngine quadMesh5 (1/2)).1.finalFaces =
      (intelligent_mesh_reduction stubEngine quadMesh5 (1/2)).1.originalFaces ∧
    (intelligent_mesh_reduction stubEngine quadMesh5 (1/2)).1.attempts = [] ∧
    (intelligent_mesh_reduction stubEngine quadMesh5 (1/2)).2 = quadMesh5 :=
  C4_small_mesh stubEngine quadMesh5 (1/2) (by decide) (by decide)

/-- Counterexample to C5 as stated: on a valid 3-face mesh the reduce call
reports success, not failure - the small-mesh guard returns true before any
primitive can run. -/
theorem C5_counterexample :
    (intelligent_mesh_reduction stubEngine triMesh3 (1/2)).1.overallSuccess = true := by
  decide

/-- C5 (amended): on a 3-face mesh the quadric collapse primitive returns
false under every engine (4-face floor), and reduce on a valid such mesh
reports success with the face count unchanged and no strategy attempted,
via the 100-face small-mesh guard. -/
theorem C5_amended (eng : Engine) (o : Mesh) (t tq : ℚ) (ps : Bool)
    (h3 : o.faces.length = 3) :
    try_quadric_decimate eng o tq ps = (false, o) ∧
    (o.isMesh = true →
      (intelligent_mesh_reduction eng o t).1.overallSuccess = true ∧
      (intelligent_mesh_reduction eng o t).1.finalFaces =
        (intelligent_mesh_reduction eng o t).1.originalFaces ∧
      (intelligent_mesh_reduction eng o t).1.attempts = []) := by
  constructor
  · simp [try_quadric_decimate, h3]
  · intro hm
    have hv : is_valid_obj o = true := by simp [is_valid_obj, hm, h3]
    rw [imr_small eng o t hv (by omega)]
    exact ⟨rfl, rfl, rfl⟩

/-- Witness for C5 (amended): the concrete 3-face mesh. -/
theorem C5_amended_witness :
    try_quadric_decimate stubEngine triMesh3 (1/2) true = (false, triMesh3) ∧
    (triMesh3.isMesh = true →
      (intelligent_mesh_reduction stubEngine triMesh3 (1/2)).1.overallSuccess = true ∧
      (intelligent_mesh_reduction stubEngine triMesh3 (1/2)).1.finalFaces =
        (intelligent_mesh_reduction stubEngine triMesh3 (1/2)).1.originalFaces ∧
      (intelligent_mesh_reduction stubEngine triMesh3 (1/2)).1.attempts = []) :=
  C5_amended stubEngine triMesh3 (1/2) (1/2) true (by decide)

/-- Counterexample to C6 as stated: a run of the loop (organic mesh, the
dissolve pass halves the face count but its enclosing composite strategy
returns false because the subsequent quadric pass is a no-op) in which some
attempt dropped the face count below 0.95 of its starting count - effective
by the definition the claim gives - while the sticky success flag stays false: the
loop evaluates effectiveness only for attempts whose call returned true. -/
theorem C6_counterexample :
    (intelligent_mesh_reduction dissolveHalfEngine triMesh100 (1/2)).1.stickySuccess
      = false ∧
    ∃ a ∈ (intelligent_mesh_reduction dissolveHalfEngine triMesh100 (1/2)).1.attempts,
      (a.facesAfter : ℚ) < (a.facesBefore : ℚ) * (19/20) := by
  refine ⟨by decide, ⟨"Planar + Quadric", 100, false, 50⟩, by decide, by decide⟩

/-- C6 (amended): in a run that passes the entry guards, the sticky success
flag is set exactly when some transcript attempt both returned true and
dropped the face count below 0.95 of the count before it - effectiveness is
only evaluated for attempts whose strategy call returned true. -/
theorem C6_amended (eng : Engine) (o : Mesh) (t : ℚ)
    (hv : is_valid_obj o = true) (hs : 100 ≤ o.faces.length) :
    ((intelligent_mesh_reduction eng o t).1.stickySuccess = true ↔
      ∃ a ∈ (intelligent_mesh_reduction eng o t).1.attempts, effectiveAttempt a) := by
  rw [imr_main eng o t hv hs, imr_core_sticky, imr_core_attempts]
  have h := runStrategies_flag_iff (pyInt ((o.faces.length : ℚ) * (1 - t)))
    (strategy_catalog eng (analyze_mesh_quality o) t) o false
  simpa using h

/-- Witness for C6 (amended): a run where the first attempt halves the
face count. -/
theorem C6_amended_witness :
    ((intelligent_mesh_reduction dropHalfEngine quadMesh100 (1/2)).1.stickySuccess = true ↔
      ∃ a ∈ (intelligent_mesh_reduction dropHalfEngine quadMesh100 (1/2)).1.attempts,
        effectiveAttempt a) :=
  C6_amended dropHalfEngine quadMesh100 (1/2) (by decide) (by decide)

/-- Counterexample to C7 as stated: in the organic composite the source
short-circuits - when the planar pass returns false the quadric pass never
runs. Under an engine whose dissolve is a no-op and whose collapse removes
faces, the source composite differs from the spec composite in which both
primitives run: the source leaves the mesh untouched, the spec version
still collapses it. -/
theorem C7_counterexample :
    ((strategy_catalog dissolveNoopEngine MeshType.organic (1/2)).getD 2 noStrategy).2
        quadMesh10 ≠
      ((spec_strategy_catalog dissolveNoopEngine MeshType.organic (1/2)).getD 2
        noStrategy).2 quadMesh10 := by
  decide

/-- C7 (amended): for every target reduction the source catalog is exactly
the ordered per-category list of the specification - same names, same
primitives, same parameters - with the organic composite read as
short-circuiting: the quadric pass runs only when the planar pass returned
true, and failure of either counts as failure of the strategy. -/
theorem C7_catalog (eng : Engine) (t : ℚ) (mt : MeshType) :
    strategy_catalog eng mt t = spec_strategy_catalog_amended eng mt t := by
  cases mt <;> simp [strategy_catalog, spec_strategy_catalog_amended, mul_comm]

/-- C8: engine errors are caught at each primitive boundary and converted
to a false result with the mesh unchanged, and a strategy call that
returned false does not stop the loop: the remaining strategies still
execute. The primitives and the loop are total functions, so no engine
error can propagate out of a reduce call. -/
theorem C8_errors_local (eng : Engine) (o : Mesh) (t ang : ℚ) (ps : Bool) (n : Nat)
    (tf : ℤ) (nm : String) (f : Mesh → Bool × Mesh)
    (rest : List (String × (Mesh → Bool × Mesh))) (s : Bool) :
    (eng.decimateCollapse (max (1/10) (1 - t)) ps o = none →
      try_quadric_decimate eng o t ps = (false, o)) ∧
    (eng.decimateUnsubdiv n o = none → try_unsubdiv_decimate eng o n = (false, o)) ∧
    (eng.decimateDissolve ang o = none → try_planar_decimate eng o ang = (false, o)) ∧
    (eng.subsurf o = none →
      apply_subdivision_surface_then_decimate eng o t = (false, o)) ∧
    ((f o).1 = false →
      runStrategies tf ((nm, f) :: rest) o s =
        ((runStrategies tf rest (f o).2 s).1,
         (runStrategies tf rest (f o).2 s).2.1,
         ⟨nm, o.faces.length, false, (f o).2.faces.length⟩ ::
           (runStrategies tf rest (f o).2 s).2.2)) := by
  refine ⟨?_, ?_, ?_, ?_, ?_⟩
  · intro h
    by_cases h4 : o.faces.length < 4
    · simp [try_quadric_decimate, h4]
    · unfold try_quadric_decimate
      rw [if_neg h4, h]
  · intro h
    simp [try_unsubdiv_decimate, h]
  · intro h
    simp [try_planar_decimate, h]
  · intro h
    simp [apply_subdivision_surface_then_decimate, h]
  · intro h
    exact runStrategies_cons_fail tf nm f rest o s h

/-- Witness for C8: the all-raising engine on a concrete 10-quad mesh, and
a two-strategy loop whose first strategy fails. -/
theorem C8_errors_local_witness :
    try_quadric_decimate stubEngine quadMesh10 (1/2) true = (false, quadMesh10) ∧
    try_unsubdiv_decimate stubEngine quadMesh10 2 = (false, quadMesh10) ∧
    try_planar_decimate stubEngine quadMesh10 5 = (false, quadMesh10) ∧
    apply_subdivision_surface_then_decimate stubEngine quadMesh10 (1/2) =
      (false, quadMesh10) ∧
    runStrategies 5 [("a", noStrategy.2), ("b", noStrategy.2)] quadMesh10 false =
      ((runStrategies 5 [("b", noStrategy.2)] (noStrategy.2 quadMesh10).2 false).1,
       (runStrategies 5 [("b", noStrategy.2)] (noStrategy.2 quadMesh10).2 false).2.1,
       ⟨"a", quadMesh10.faces.length, false, (noStrategy.2 quadMesh10).2.faces.length⟩ ::
         (runStrategies 5 [("b", noStrategy.2)] (noStrategy.2 quadMesh10).2 false).2.2) := by
  have h := C8_errors_local stubEngine quadMesh10 (1/2) 5 true 2 5 "a" noStrategy.2
    [("b", noStrategy.2)] false
  exact ⟨h.1 rfl, h.2.1 rfl, h.2.2.1 rfl, h.2.2.2.1 rfl, h.2.2.2.2 rfl⟩

/-- Counterexample to C9 as stated: the out-of-range value 1.5 is not
replaced by the default 0.5 - the parser returns it as-is and the range
guard in main is fatal: no input file is processed. -/
theorem C9_counterexample :
    parse_arguments [PyStr.flagR, PyStr.num (3/2)] = 3/2 ∧
    main_proceeds [PyStr.flagR, PyStr.num (3/2)] = false := by
  decide

/-- C9 (amended): an unparseable reduction value falls back to the default
0.5 with a warning and processing proceeds; a parseable value is taken
as-is and main proceeds exactly when it lies in [0, 1] - an out-of-range
numeric value makes main return before processing any file. -/
theorem C9_amended (q : ℚ) :
    parse_arguments [PyStr.flagR, PyStr.other] = 1/2 ∧
    main_proceeds [PyStr.flagR, PyStr.other] = true ∧
    parse_arguments [PyStr.flagR, PyStr.num q] = q ∧
    main_proceeds [PyStr.flagR, PyStr.num q] = decide (0 ≤ q ∧ q ≤ 1) := by
  exact ⟨by decide, by decide, rfl, rfl⟩

/-- C10: in a run that passes the entry guards, if no transcript attempt
was effective (every attempt missed the 5 percent threshold or returned
false) while the final face count still dropped below the original, the
call reports success and the post-processor was never invoked: its
invocation is keyed on the sticky flag alone and diverges from the
reported success. -/
theorem C10_postprocess_skipped (eng : Engine) (o : Mesh) (t : ℚ)
    (hv : is_valid_obj o = true) (hs : 100 ≤ o.faces.length)
    (hne : ∀ a ∈ (intelligent_mesh_reduction eng o t).1.attempts, ¬ effectiveAttempt a)
    (hred : (intelligent_mesh_reduction eng o t).1.finalFaces <
      (intelligent_mesh_reduction eng o t).1.originalFaces) :
    (intelligent_mesh_reduction eng o t).1.overallSuccess = true ∧
    (intelligent_mesh_reduction eng o t).1.postProcessed = false := by
  rw [imr_main eng o t hv hs] at hne hred ⊢
  rw [imr_core_attempts] at hne
  constructor
  · rw [imr_core_overallSuccess]
    exact decide_eq_true hred
  · rw [imr_core_postProcessed]
    cases hflag : (reduction_loop_result eng o t).2.1
    · rfl
    · exfalso
      have h2 := (runStrategies_flag_iff (pyInt ((o.faces.length : ℚ) * (1 - t)))
        (strategy_catalog eng (analyze_mesh_quality o) t) o false).mp hflag
      rcases h2 with h2 | ⟨a, ha, hae⟩
      · exact absurd h2 (by simp)
      · exact hne a ha hae

/-- Witness for C10: an engine that only ever shaves a few faces per call:
every attempt misses the 5 percent threshold, the final count 86 is below
100, the call reports success and no post-processing happened. -/
theorem C10_postprocess_skipped_witness :
    (intelligent_mesh_reduction gradualEngine quadMesh100 (1/2)).1.overallSuccess = true ∧
    (intelligent_mesh_reduction gradualEngine quadMesh100 (1/2)).1.postProcessed = false :=
  C10_postprocess_skipped gradualEngine quadMesh100 (1/2) (by decide) (by decide)
    (by decide) (by decide)
